import Mathlib

/-!
# Verification of the Signals enrichment pipeline

Shallow embedding of the pipeline core of the `signals` repository:

* `app/pipeline/rag.py`          — chunking and the knowledge (chunk) store
* `app/pipeline/mongodb.py`      — slug derivation and the company upsert
* `app/pipeline/openrouter.py`   — the intelligence synthesizer `analyze_company`
* `app/pipeline/orchestrator.py` — `run_pipeline`

Python dictionaries holding JSON-shaped data are modelled by the inductive
type `JVal`; Python truthiness by `JVal.isTruthy` / `pyTruthyS`; the external
collaborators (crawl, document parse, deep-dive agents, LLM completion,
embedding) are parameters of the orchestrator model, each an `Except`-valued
outcome, mirroring `asyncio.gather(..., return_exceptions=True)`.
Machine details that no claim depends on (exact `json.dumps` whitespace,
vector contents, wall-clock time) are abstracted: serialization is a
deterministic structural serializer, embeddings an arbitrary function
parameter, time a natural-number parameter.
-/

namespace Signals

/-- JSON-shaped values as produced by external collaborators and stored in
profile fields.  Numbers are modelled as integers (the claims under study
only involve integral values). -/
inductive JVal where
  | null : JVal
  | bool : Bool → JVal
  | num : Int → JVal
  | str : String → JVal
  | arr : List JVal → JVal
  | obj : List (String × JVal) → JVal

/-- Python truthiness of a JSON value (`if agent_result:` etc.). -/
def JVal.isTruthy : JVal → Bool
  | .null => false
  | .bool b => b
  | .num n => n != 0
  | .str s => s != ""
  | .arr l => !l.isEmpty
  | .obj l => !l.isEmpty

mutual

/-- Deterministic structural serializer standing for `json.dumps`
(indentation and escaping of the Python original are not reproduced;
no claim depends on the rendered text, only on its determinism). -/
def JVal.dumps : JVal → String
  | .null => "null"
  | .bool b => if b then "true" else "false"
  | .num n => toString n
  | .str s => "\x22" ++ s ++ "\x22"
  | .arr l => "[" ++ String.intercalate ", " (JVal.dumpsList l) ++ "]"
  | .obj l => "\x7b" ++ String.intercalate ", " (JVal.dumpsPairs l) ++ "\x7d"

def JVal.dumpsList : List JVal → List String
  | [] => []
  | v :: vs => v.dumps :: JVal.dumpsList vs

def JVal.dumpsPairs : List (String × JVal) → List String
  | [] => []
  | (k, v) :: kvs => ("\x22" ++ k ++ "\x22: " ++ v.dumps) :: JVal.dumpsPairs kvs

end

/-- Dictionary lookup, `d.get(key)`.  Association lists model Python dicts
with distinct keys. -/
def jget (o : List (String × JVal)) (key : String) : Option JVal :=
  o.lookup key

/-- `d.get(key, "")` restricted to string values (the pipeline only reads
string-typed fields this way). -/
def jgetStr (o : List (String × JVal)) (key : String) : String :=
  match jget o key with
  | some (.str s) => s
  | _ => ""

/-- Truthiness of `d.get(key)` (`if analysis.get("metrics"):`). -/
def jgetTruthy (o : List (String × JVal)) (key : String) : Bool :=
  match jget o key with
  | some v => v.isTruthy
  | none => false

/-- Python truthiness of an optional string argument (`None` and `""` are
falsy). -/
def pyTruthyS : Option String → Bool
  | none => false
  | some s => s != ""

/-- `a or b` for an optional string with a string default. -/
def pyOrS (a : Option String) (b : String) : String :=
  match a with
  | some s => if s = "" then b else s
  | none => b

/-- Whitespace characters stripped by Python `str.strip()` (ASCII part). -/
def isPyWs (c : Char) : Bool :=
  c = ' ' || c = '\t' || c = '\n' || c = '\r' || c = '\x0b' || c = '\x0c'

/-- Python `str.strip()`. -/
def pyStrip (s : String) : String :=
  String.mk (((s.data.dropWhile isPyWs).reverse.dropWhile isPyWs).reverse)

/-- ASCII lowercasing of one character (`str.lower`; characters outside
`A`–`Z` are unchanged, which agrees with Python on every character the
slug regex keeps). -/
def pyLowerChar (c : Char) : Char :=
  if 'A' ≤ c && c ≤ 'Z' then Char.ofNat (c.toNat + 32) else c

/-- ASCII uppercasing of one character (`str.upper`). -/
def pyUpperChar (c : Char) : Char :=
  if 'a' ≤ c && c ≤ 'z' then Char.ofNat (c.toNat - 32) else c

/-- `s.upper()` (the mission topics are ASCII). -/
def pyUpper (s : String) : String :=
  String.mk (s.data.map pyUpperChar)

/-- `text.split("\n\n")`: Python `str.split` with a nonempty separator —
leftmost-first, non-overlapping occurrences, empty segments kept.
`acc` holds the current segment reversed. -/
def splitPara : List Char → List Char → List String
  | [], acc => [String.mk acc.reverse]
  | '\n' :: '\n' :: cs, acc => String.mk acc.reverse :: splitPara cs []
  | c :: cs, acc => splitPara cs (c :: acc)

/-!
## Knowledge indexer: `chunk_text` (`app/pipeline/rag.py`, lines 16–36)

The accumulator `current` carries a trailing `"\n\n"` after every appended
paragraph, exactly as in the Python loop; a chunk is emitted as
`current.strip()` and only when nonempty.
-/

/-- The paragraph loop of `chunk_text`: `current` is the accumulated chunk
text (with trailing separator), sealed chunks are emitted in order. -/
def chunkTextGo (chunkSize : Nat) : List String → String → List String
  | [], current =>
      if pyStrip current ≠ "" then [pyStrip current] else []
  | p :: ps, current =>
      if current.length + p.length < chunkSize then
        chunkTextGo chunkSize ps (current ++ p ++ "\n\n")
      else
        (if pyStrip current ≠ "" then [pyStrip current] else [])
          ++ chunkTextGo chunkSize ps (p ++ "\n\n")

/-- `chunk_text(text, chunk_size=500)`: split on blank lines and greedily
pack paragraphs (source: `app/pipeline/rag.py`). -/
def chunk_text (text : String) (chunkSize : Nat := 500) : List String :=
  if text = "" then []
  else chunkTextGo chunkSize (splitPara text.data []) ""

/-!
A second, spec-side description of the chunker, parameterized by the
seal test so that the spec's wording ("appending the next paragraph would
exceed the budget", a strict comparison) and the code's behaviour (seal
already when the budget would be reached) can be compared.  `sealAt n size`
decides whether a prospective chunk of `n` characters forces a seal.
-/

/-- Greedy paragraph packing with an explicit seal test on the prospective
chunk length `current.length + p.length` (the accumulated text keeps a
trailing two-character separator, so this is exactly the length of the
emitted chunk after `strip` for separator-free paragraphs). -/
def chunkGreedy (sealAt : Nat → Nat → Bool) (chunkSize : Nat) :
    List String → String → List String
  | [], current =>
      if pyStrip current ≠ "" then [pyStrip current] else []
  | p :: ps, current =>
      if sealAt (current.length + p.length) chunkSize then
        (if pyStrip current ≠ "" then [pyStrip current] else [])
          ++ chunkGreedy sealAt chunkSize ps (p ++ "\n\n")
      else
        chunkGreedy sealAt chunkSize ps (current ++ p ++ "\n\n")

/-- Modelled from the spec: chunking as the spec words it — seal exactly
when appending the next paragraph would **strictly exceed** the budget. -/
def chunkTextSpecStrict (text : String) (chunkSize : Nat) : List String :=
  if text = "" then []
  else chunkGreedy (fun n size => n > size) chunkSize (splitPara text.data []) ""

/-- The amended spec: seal exactly when appending the next paragraph would
**reach or exceed** the budget. -/
def chunkTextSpecGe (text : String) (chunkSize : Nat) : List String :=
  if text = "" then []
  else chunkGreedy (fun n size => n ≥ size) chunkSize (splitPara text.data []) ""

/-!
## Slug derivation: `make_slug` (`app/pipeline/mongodb.py`, lines 119–121)

`re.sub(r"[^a-z0-9]+", "-", name.lower()).strip("-")`: lowercase, collapse
every maximal run of non-(lowercase-alphanumeric) characters to a single
hyphen, trim hyphens at both ends.
-/

/-- A character kept by the slug regex (lowercase ASCII letter or digit). -/
def isSlugKeep (c : Char) : Bool :=
  ('a' ≤ c && c ≤ 'z') || ('0' ≤ c && c ≤ '9')

/-- `re.sub(r"[^a-z0-9]+", "-", ·)` over a character list; the boolean
records whether the previous character already belonged to a replaced
run. -/
def slugCollapse : Bool → List Char → List Char
  | _, [] => []
  | inRun, c :: cs =>
      if isSlugKeep c then c :: slugCollapse false cs
      else if inRun then slugCollapse true cs
      else '-' :: slugCollapse true cs

/-- `str.strip("-")`. -/
def stripHyphens (l : List Char) : List Char :=
  ((l.dropWhile (· = '-')).reverse.dropWhile (· = '-')).reverse

/-- `make_slug(name)` (source: `app/pipeline/mongodb.py`).  `str.lower` is
modelled by `Char.toLower`; characters outside `[a-z0-9]` are replaced by
hyphen runs either way, so the two agree on every character class the
claims exercise. -/
def make_slug (name : String) : String :=
  String.mk (stripHyphens (slugCollapse false (name.data.map pyLowerChar)))

/-!
## Data model and store operations (`app/pipeline/mongodb.py`)

The document store is modelled by `DB`, one list per collection.  Wall-clock
timestamps (`datetime.now`) are a natural-number parameter `now`.
-/

/-- The `monitoring` sub-object written by the pipeline. -/
structure Monitoring where
  active : Bool
  intervalHours : Nat
  lastChecked : Nat
  nextCheck : Option Nat
deriving DecidableEq

/-- A company document as built and stored by `run_pipeline` (the keys of
the `profile` dict, `orchestrator.py` lines 328–360).  `documentMeta` is
the `document_data` sub-dict, reduced to its `text_length` (its
`has_document` field is `True` exactly when the sub-dict is present). -/
structure Profile where
  name : String
  slug : String
  description : String
  website : String
  crawledAt : Nat
  updatedAt : Nat
  watchlist : Bool
  webDataUrl : Option String
  webDataRawLength : Nat
  documentMeta : Option Nat
  analysis : List (String × JVal)
  agent_metrics : List (String × JVal)
  monitoring : Monitoring

/-- A snapshot row (`store_snapshot`). -/
structure Snapshot where
  slug : String
  timestamp : Nat
  analysis : List (String × JVal)
  agent_metrics : List (String × JVal)

/-- A metric-history row (`record_metric_history`). -/
structure MetricDoc where
  slug : String
  timestamp : Nat
  metrics : List (String × JVal)

/-- A knowledge chunk document (`process_and_store_knowledge`, step 3). -/
structure ChunkDoc where
  company_slug : String
  text : String
  vector : List Int
  source : String
  chunk_index : Nat
deriving DecidableEq

/-- The four collections used by the pipeline. -/
structure DB where
  companies : List Profile
  snapshots : List Snapshot
  metricsHistory : List MetricDoc
  knowledge : List ChunkDoc

def DB.empty : DB := ⟨[], [], [], []⟩

/-- `store_company(data)`: resolve the key (`data.get("slug") or
make_slug(data.get("name", "unknown"))` — an empty slug is falsy and gets
recomputed from the name), refresh `updated_at`, and
`find_one_and_update({"slug": slug}, {"$set": data}, upsert=True)`.
`$set` writes every field of `data`; since `Profile` has exactly the
pipeline's fields, the matched document's modelled fields are all
replaced.  Returns the post-update document. -/
def store_company (db : DB) (data : Profile) (now : Nat) : DB × Profile :=
  let slug := if data.slug ≠ "" then data.slug else make_slug data.name
  let doc := { data with slug := slug, updatedAt := now }
  let companies :=
    if db.companies.any (fun c => c.slug = slug) then
      db.companies.map (fun c => if c.slug = slug then doc else c)
    else
      db.companies ++ [doc]
  ({ db with companies := companies }, doc)

/-- `get_company(slug)`. -/
def get_company (db : DB) (slug : String) : Option Profile :=
  db.companies.find? (fun c => c.slug = slug)

/-- `toggle_watchlist(slug, enabled)`: a field-level `$set` on `watchlist`
only, no upsert. -/
def toggle_watchlist (db : DB) (slug : String) (enabled : Bool) : DB :=
  { db with
    companies := db.companies.map fun c =>
      if c.slug = slug then { c with watchlist := enabled } else c }

/-- `store_snapshot(slug, data)`: append-only insert. -/
def store_snapshot (db : DB) (slug : String)
    (analysis agentMetrics : List (String × JVal)) (now : Nat) : DB :=
  { db with snapshots := db.snapshots ++ [⟨slug, now, analysis, agentMetrics⟩] }

/-- `record_metric_history(slug, metrics)`: no-op on a falsy (empty)
metrics dict, else an append-only insert. -/
def record_metric_history (db : DB) (slug : String)
    (metrics : List (String × JVal)) (now : Nat) : DB :=
  if metrics.isEmpty then db
  else { db with metricsHistory := db.metricsHistory ++ [⟨slug, now, metrics⟩] }

/-!
## Knowledge indexer (`app/pipeline/rag.py`, lines 52–92)

The embedding capability is a function parameter `embed`; one chunk
document is built per chunk with its position as `chunk_index`.
-/

/-- Whether a chunk document belongs to one `(company_slug, source)` key. -/
def ChunkDoc.keyMatches (d : ChunkDoc) (slug source : String) : Bool :=
  d.company_slug = slug && d.source = source

/-- Step 3 of `process_and_store_knowledge`: one document per
`(chunk, vector)` pair, indexed by enumeration position. -/
def buildChunkDocs (embed : String → List Int) (slug source : String)
    (chunks : List String) : List ChunkDoc :=
  chunks.enum.map fun p => ⟨slug, p.2, embed p.2, source, p.1⟩

/-- `coll.delete_many({"company_slug": slug, "source": source_type})`. -/
def deleteKnowledge (db : DB) (slug source : String) : DB :=
  { db with
    knowledge := db.knowledge.filter fun d => !(d.keyMatches slug source) }

/-- `process_and_store_knowledge(slug, text, source_type)`: early return on
empty text or an empty chunk list, else delete the prior `(slug, source)`
chunk set and insert the new documents. -/
def process_and_store_knowledge (embed : String → List Int)
    (slug text source : String) (db : DB) : DB :=
  if text = "" then db
  else
    let chunks := chunk_text text 500
    if chunks.isEmpty then db
    else
      let docs := buildChunkDocs embed slug source chunks
      let db' := deleteKnowledge db slug source
      { db' with knowledge := db'.knowledge ++ docs }

/-- The successive externally-visible steps of an indexing task, in
execution order: chunking, embedding, the delete call, the insert call. -/
inductive IndexStep where
  | chunkStep
  | embedStep
  | deleteStep
  | insertStep
deriving DecidableEq

/-- `process_and_store_knowledge` with an injected failure: the task raises
at step `failAt` (absorbed by the orchestrator's
`gather(..., return_exceptions=True)`), and the store reflects exactly the
store operations executed before the raise.  A failing delete call is
modelled as raising before taking effect; a failure at the insert call
happens **after** the delete has applied. -/
def runIndexWithFailure (embed : String → List Int)
    (slug text source : String) (failAt : Option IndexStep) (db : DB) : DB :=
  if text = "" then db
  else if failAt = some .chunkStep then db
  else
    let chunks := chunk_text text 500
    if chunks.isEmpty then db
    else if failAt = some .embedStep then db
    else if failAt = some .deleteStep then db
    else
      let db' := deleteKnowledge db slug source
      if failAt = some .insertStep then db'
      else { db' with knowledge := db'.knowledge ++ buildChunkDocs embed slug source chunks }

/-!
## Intelligence synthesizer: `analyze_company`
(`app/pipeline/openrouter.py`, lines 18–87)

The crawl result dict and the document-parse result dict are modelled by
`WebData` and `DocData`.  The LLM completion call (transport, timeout and
`json.loads` included) is a function parameter from the prompt to an
`Except`-valued parsed object: a transport error, a timeout and an
unparsable response are all an `.error`.
-/

/-- The crawl result as the orchestrator consumes it: the `"raw"` text and
the optional `"url"` key.  The noop crawl yields `{"raw": ""}`. -/
structure WebData where
  raw : String
  url : Option String
deriving DecidableEq

/-- The document-parse result (`{"extracted_text": ...}`). -/
structure DocData where
  extracted_text : String
deriving DecidableEq

/-- Python slicing `s[:n]`. -/
def pySlice (s : String) (n : Nat) : String :=
  String.mk (s.data.take n)

/-- Lines 23–41 of `analyze_company`: the context assembled from the web
raw text (truncated to 12000 characters) and the document text (truncated
to 4000).  In the pipeline `web_data` is always a (truthy, nonempty) dict,
so only its `raw` field is tested for emptiness. -/
def analysisContext (web_data : WebData) (document_data : Option DocData) : String :=
  let parts : List String :=
    (if web_data.raw ≠ "" then ["=== WEB DATA ===\n" ++ pySlice web_data.raw 12000] else [])
    ++ (match document_data with
        | some d =>
          if d.extracted_text ≠ "" then
            ["=== DOCUMENT ===\n" ++ pySlice d.extracted_text 4000]
          else []
        | none => [])
  if parts.isEmpty then "No data available." else String.intercalate "\n\n" parts

/-- The fixed instruction block of the analysis prompt (the long JSON
template of lines 49–67, whose exact wording no claim depends on). -/
def analysisTaskBlock : String :=
  "TASK:\nReturn a JSON object with name, summary, metrics, competitors, " ++
  "strengths, red_flags, funding, website.  Output valid JSON only."

/-- The prompt of `analyze_company`: identifier and assembled context. -/
def analysisPrompt (identifier context : String) : String :=
  "Analyze the following data for " ++ identifier ++ ".\n\nDATA:\n" ++ context
    ++ "\n\n" ++ analysisTaskBlock ++ "\n"

/-- The deterministic fallback object of lines 82–87. -/
def analysisFallback (identifier err : String) : List (String × JVal) :=
  [("name", .str identifier),
   ("summary", .str "Analysis failed"),
   ("metrics", .obj [("sentiment", .str "Neutral"), ("signal_strength", .num 0)]),
   ("error", .str err)]

/-- `analyze_company(name, url, web_data, document_data)`: build context
and prompt, call the completion capability, return the parsed object
**unchanged** on success, and the fallback object on any failure. -/
def analyze_company (name url : Option String)
    (completion : String → Except String (List (String × JVal)))
    (web_data : WebData) (document_data : Option DocData) :
    List (String × JVal) :=
  let context := analysisContext web_data document_data
  let identifier := pyOrS name (pyOrS url "Unknown Company")
  match completion (analysisPrompt identifier context) with
  | .ok o => o
  | .error e => analysisFallback identifier e

/-!
## Pipeline orchestrator: `run_pipeline`
(`app/pipeline/orchestrator.py`, lines 141–395)

Every external call is a parameter: the outcome of the crawl task, of the
document-parse task, of the three deep-dive agent tasks (in mission
order), the completion capability used by the synthesis task, the
embedding capability used by the indexing tasks, and an optional injected
failure step for each indexing task.  `asyncio.gather(...,
return_exceptions=True)` together with the `isinstance(..., Exception)`
unpacking is modelled by matching on each `Except` outcome.  The final
Lovable-schema formatting layer (`format_pipeline_output`) is outside the
claims and is not modelled; the run's result is the stored profile plus
the `agents_completed` metadata.
-/

/-- The `topic` fields of `AGENT_MISSIONS`, in roster order. -/
def AGENT_TOPICS : List String := ["hiring_velocity", "dev_velocity", "pricing_model"]

/-- The arguments of `run_pipeline` (all default `None`). -/
structure RunInput where
  name : Option String := none
  url : Option String := none
  document_base64 : Option String := none
  document_url : Option String := none

/-- The behaviour of the external collaborators during one run. -/
structure RunOutcomes where
  crawl : Except String WebData
  docParse : Except String DocData
  agents : List (Except String JVal)
  completion : String → Except String (List (String × JVal))
  webIndexFail : Option IndexStep := none
  docIndexFail : Option IndexStep := none

/-- The labeled corpus section appended for one successful specialist
(lines 261–262). -/
def agentSection (topic : String) (v : JVal) : String :=
  "\n\n=== AGENT REPORT: " ++ pyUpper topic ++ " ===\n" ++ v.dumps

/-- Lines 246–265: classify each agent outcome; failures and falsy results
are skipped, successes are serialized into the findings text and stored
under their topic in `agent_metrics`, in roster order. -/
def mergeAgents : List (String × Except String JVal) → String × List (String × JVal)
  | [] => ("", [])
  | (topic, o) :: rest =>
    let tm := mergeAgents rest
    match o with
    | .error _ => tm
    | .ok v =>
      if v.isTruthy then (agentSection topic v ++ tm.1, (topic, v) :: tm.2)
      else tm

/-- The monitoring defaults written by every run (lines 354–359). -/
def defaultMonitoring (now : Nat) : Monitoring :=
  { active := false, intervalHours := 24, lastChecked := now, nextCheck := none }

/-- What one run returns: the store afterwards, the stored profile
(`stored`), and `_meta.agents_completed`. -/
structure RunResult where
  db : DB
  stored : Profile
  agentsCompleted : List String

/-- Lines 179–189 and 231–234: the web crawl task runs only when `url` or
`name` is truthy (else the noop yields `{"raw": ""}`); a crawl exception is
replaced by `{"raw": "", "error": ...}`. -/
def crawlWebData (inp : RunInput) (oc : RunOutcomes) : WebData :=
  if pyTruthyS inp.url || pyTruthyS inp.name then
    match oc.crawl with
    | .ok w => w
    | .error _ => ⟨"", none⟩
  else ⟨"", none⟩

/-- Lines 192–202 and 237–240: the parse task runs only when a document
reference is truthy; a parse exception degrades to `None`. -/
def parsedDoc (inp : RunInput) (oc : RunOutcomes) : Option DocData :=
  if pyTruthyS inp.document_base64 || pyTruthyS inp.document_url then
    match oc.docParse with
    | .ok d => some d
    | .error _ => none
  else none

/-- Lines 204–220: the agent swarm is launched only when `name` is truthy,
one task per mission in roster order. -/
def agentOutcomeList (inp : RunInput) (oc : RunOutcomes) :
    List (String × Except String JVal) :=
  if pyTruthyS inp.name then AGENT_TOPICS.zip oc.agents else []

/-- Lines 267–270: the merged corpus — crawl raw text with the agent
findings appended. -/
def mergedWebData (inp : RunInput) (oc : RunOutcomes) : WebData :=
  let w := crawlWebData inp oc
  { w with raw := w.raw ++ (mergeAgents (agentOutcomeList inp oc)).1 }

/-- Lines 272–275: the working name — explicit `name`, else (when a
document parsed and no name was given) the fixed label `"uploaded-doc"`,
else the crawl-discovered URL, else `"unknown"`. -/
def workingName (inp : RunInput) (oc : RunOutcomes) : String :=
  let w := mergedWebData inp oc
  let base :=
    if pyTruthyS inp.name then inp.name.getD ""
    else if w.url.getD "" ≠ "" then w.url.getD ""
    else "unknown"
  if (parsedDoc inp oc).isSome && !pyTruthyS inp.name then "uploaded-doc" else base

/-- Line 276: the storage key for the remainder of the run. -/
def runSlug (inp : RunInput) (oc : RunOutcomes) : String :=
  make_slug (workingName inp oc)

/-- Lines 286–289 and 309–317: the synthesis task.  `analyze_company`
never raises, so the orchestrator's own `isinstance(..., Exception)`
fallback for this task is unreachable. -/
def runAnalysis (inp : RunInput) (oc : RunOutcomes) : List (String × JVal) :=
  analyze_company inp.name inp.url oc.completion (mergedWebData inp oc) (parsedDoc inp oc)

/-- Line 324: `analysis.get("name") or temp_name` (string-valued names). -/
def runFinalName (inp : RunInput) (oc : RunOutcomes) : String :=
  let n := jgetStr (runAnalysis inp oc) "name"
  if n = "" then workingName inp oc else n

/-- Line 332: `url or analysis.get("website", "") or web_data.get("url", "")`. -/
def runWebsite (inp : RunInput) (oc : RunOutcomes) : String :=
  if pyTruthyS inp.url then inp.url.getD ""
  else
    let aw := jgetStr (runAnalysis inp oc) "website"
    if aw ≠ "" then aw else (mergedWebData inp oc).url.getD ""

/-- Lines 328–360: the complete profile handed to `store_company`. -/
def runProfile (inp : RunInput) (oc : RunOutcomes) (now : Nat) : Profile :=
  let w := mergedWebData inp oc
  let d := parsedDoc inp oc
  { name := runFinalName inp oc,
    slug := runSlug inp oc,
    description := jgetStr (runAnalysis inp oc) "summary",
    website := runWebsite inp oc,
    crawledAt := now,
    updatedAt := now,
    watchlist := false,
    webDataUrl := w.url,
    webDataRawLength := w.raw.length,
    documentMeta := d.map (fun dd => dd.extracted_text.length),
    analysis := runAnalysis inp oc,
    agent_metrics := (mergeAgents (agentOutcomeList inp oc)).2,
    monitoring := defaultMonitoring now }

/-- `d[k] = v` on a Python dict: overwrite in place, else append. -/
def jset (o : List (String × JVal)) (k : String) (v : JVal) :
    List (String × JVal) :=
  if (o.lookup k).isSome then o.map (fun p => if p.1 = k then (k, v) else p)
  else o ++ [(k, v)]

/-- `d.get(k)` on a dict-shaped value (`None` when absent). -/
def jvGet (v : JVal) (k : String) : JVal :=
  match v with
  | .obj o => (jget o k).getD .null
  | _ => .null

/-- The `metrics` object of the analysis (`analysis["metrics"]`). -/
def analysisMetricsObj (analysis : List (String × JVal)) : List (String × JVal) :=
  match jget analysis "metrics" with
  | some (.obj m) => m
  | _ => []

/-- Lines 375–381: `{**analysis["metrics"]}` plus the agent-derived
additions. -/
def metricsToStore (analysis agentMetrics : List (String × JVal)) :
    List (String × JVal) :=
  let base := analysisMetricsObj analysis
  let base :=
    match jget agentMetrics "hiring_velocity" with
    | some hv =>
      if hv.isTruthy then
        jset (jset base "hiring_status" (jvGet hv "hiring_status"))
          "open_roles" (jvGet hv "open_roles_count")
      else base
    | none => base
  match jget agentMetrics "pricing_model" with
  | some pm =>
    if pm.isTruthy then jset base "has_free_tier" (jvGet pm "has_free_tier")
    else base
  | none => base

/-- Stage B, indexing side (lines 292–307): a task is launched only for
nonempty text; each launched task may carry an injected failure. -/
def dbAfterIndexing (inp : RunInput) (oc : RunOutcomes)
    (embed : String → List Int) (db : DB) : DB :=
  let w := mergedWebData inp oc
  let db :=
    if w.raw ≠ "" then
      runIndexWithFailure embed (runSlug inp oc) w.raw "web" oc.webIndexFail db
    else db
  match parsedDoc inp oc with
  | some dd =>
    if dd.extracted_text ≠ "" then
      runIndexWithFailure embed (runSlug inp oc) dd.extracted_text "document"
        oc.docIndexFail db
    else db
  | none => db

/-- `run_pipeline(name, url, document_base64, document_url)`: ingestion
fan-out with per-task isolation, merge, slug derivation, synthesis and
indexing, then persistence of profile, snapshot and (when metrics are
present) one metric-history row.  Total: in the model, as in the source,
no sub-task outcome reaches the caller as an exception. -/
def run_pipeline (inp : RunInput) (oc : RunOutcomes)
    (embed : String → List Int) (now : Nat) (db : DB) : RunResult :=
  let slug := runSlug inp oc
  let analysis := runAnalysis inp oc
  let agentMetrics := (mergeAgents (agentOutcomeList inp oc)).2
  let dbStored := store_company (dbAfterIndexing inp oc embed db) (runProfile inp oc now) now
  let db := store_snapshot dbStored.1 slug analysis agentMetrics now
  let db :=
    if jgetTruthy analysis "metrics" then
      record_metric_history db slug (metricsToStore analysis agentMetrics) now
    else db
  ⟨db, dbStored.2, agentMetrics.map (·.1)⟩

/-- `refresh_company(slug)`: resolve the stored identity and re-run. -/
def refresh_company (oc : RunOutcomes) (embed : String → List Int)
    (now : Nat) (db : DB) (slug : String) : Option RunResult :=
  match get_company db slug with
  | none => none
  | some existing =>
    some (run_pipeline
      { name := some existing.name, url := some existing.website } oc embed now db)

/-!
## Spec-side definitions

Definitions written from the spec's wording (not from the source), used to
compare the two.
-/

/-- Modelled from the spec: the working-name precedence exactly as the spec
states it — "explicit `name` > crawl-discovered canonical URL/name > a
fixed fallback label for document-only runs". -/
def workingNameSpec (inp : RunInput) (oc : RunOutcomes) : String :=
  if pyTruthyS inp.name then inp.name.getD ""
  else if (crawlWebData inp oc).url.getD "" ≠ "" then (crawlWebData inp oc).url.getD ""
  else if (parsedDoc inp oc).isSome then "uploaded-doc"
  else "unknown"

/-- The working-name rule the source actually implements: a successfully
parsed document forces the `"uploaded-doc"` label for every no-name run,
taking precedence over the crawl-discovered URL. -/
def workingNameAmended (inp : RunInput) (oc : RunOutcomes) : String :=
  if pyTruthyS inp.name then inp.name.getD ""
  else if (parsedDoc inp oc).isSome then "uploaded-doc"
  else if (crawlWebData inp oc).url.getD "" ≠ "" then (crawlWebData inp oc).url.getD ""
  else "unknown"

/-- The successful specialist outcomes, in roster order: exactly the
entries merged by `mergeAgents` (failures and falsy results dropped). -/
def agentSuccesses (l : List (String × Except String JVal)) :
    List (String × JVal) :=
  l.filterMap fun tv =>
    match tv.2 with
    | .ok v => if v.isTruthy then some (tv.1, v) else none
    | .error _ => none

/-!
## Concrete scenario data

Fixed collaborator behaviours used by the witnesses and counterexamples.
-/

/-- A concrete embedding capability. -/
def embed0 : String → List Int := fun _ => [0]

/-- The analysis object of the spec's concrete scenario: upstream
`signal_strength` of 150. -/
def acmeAnalysis : List (String × JVal) :=
  [("name", .str "Acme Corp"), ("summary", .str "A company."),
   ("metrics", .obj [("sentiment", .str "Bullish"), ("signal_strength", .num 150)])]

/-- The spec's concrete scenario: crawl succeeds, no document, the
`hiring_velocity` specialist succeeds, the other two fail, synthesis
returns `acmeAnalysis`. -/
def acmeOutcomes : RunOutcomes :=
  { crawl := .ok ⟨"homepage text", some "https://acme.com"⟩,
    docParse := .error "no doc",
    agents := [.ok (.obj [("hiring_status", .str "Aggressive"), ("open_roles_count", .num 42)]),
               .error "boom", .error "boom"],
    completion := fun _ => .ok acmeAnalysis }

/-- Every external collaborator fails. -/
def failOutcomes : RunOutcomes :=
  { crawl := .error "crawl down",
    docParse := .error "parse down",
    agents := [.error "a", .error "b", .error "c"],
    completion := fun _ => .error "llm down" }

/-- A run with a crawl-discovered URL and a successfully parsed document,
but no explicit name. -/
def urlDocOutcomes : RunOutcomes :=
  { crawl := .ok ⟨"web text", some "https://x.com"⟩,
    docParse := .ok ⟨"doc text"⟩,
    agents := [],
    completion := fun _ => .error "e" }

/-- A profile whose slug normalized to the empty string while its display
name did not. -/
def emptySlugProfile : Profile :=
  { name := "Acme Corp", slug := "", description := "", website := "",
    crawledAt := 0, updatedAt := 0, watchlist := false, webDataUrl := none,
    webDataRawLength := 0, documentMeta := none, analysis := [],
    agent_metrics := [], monitoring := defaultMonitoring 0 }

/-- First run of the watchlist scenario. -/
def wlRun1 : RunResult :=
  run_pipeline { name := some "Acme Corp" } acmeOutcomes embed0 1 DB.empty

/-- The separate write path then puts the company on the watchlist. -/
def wlToggled : DB := toggle_watchlist wlRun1.db "acme-corp" true

/-- A stored profile whose `watchlist` and `monitoring` fields were set by
the write paths that own them (watchlist toggle; monitoring scheduler). -/
def monitoredProfile : Profile :=
  { name := "Acme Corp", slug := "acme-corp", description := "", website := "",
    crawledAt := 0, updatedAt := 0, watchlist := true, webDataUrl := none,
    webDataRawLength := 0, documentMeta := none, analysis := [],
    agent_metrics := [],
    monitoring := { active := true, intervalHours := 6, lastChecked := 0,
                    nextCheck := some 99 } }

/-- A store holding `monitoredProfile` before a refresh run. -/
def monitoredDb : DB := ⟨[monitoredProfile], [], [], []⟩

/-- The knowledge store after indexing the corpus `"hello"` for
`("acme", "web")`. -/
def dbHello : DB := process_and_store_knowledge embed0 "acme" "hello" "web" DB.empty

/-- The knowledge store after indexing the corpus `"old corpus"` for
`("acme", "web")`. -/
def dbOldCorpus : DB := process_and_store_knowledge embed0 "acme" "old corpus" "web" DB.empty

/-!
## Theorems

General lemmas first, then one theorem per claim (with witnesses and
counterexamples where the claim's status requires them).
-/

/-- The source's paragraph loop is the greedy loop with the
reach-or-exceed seal test. -/
theorem chunkTextGo_eq_chunkGreedy (chunkSize : Nat) (ps : List String) (current : String) :
    chunkTextGo chunkSize ps current
      = chunkGreedy (fun n size => n ≥ size) chunkSize ps current := by
  induction ps generalizing current with
  | nil => rfl
  | cons p ps ih =>
    simp only [chunkTextGo, chunkGreedy, decide_eq_true_eq]
    by_cases h : current.length + p.length < chunkSize
    · rw [if_pos h, if_neg (by omega : ¬ current.length + p.length ≥ chunkSize), ih]
    · rw [if_neg h, if_pos (by omega : current.length + p.length ≥ chunkSize), ih]

/-- Every document built by the indexer carries the `(slug, source)` key. -/
theorem buildChunkDocs_keyMatches (embed : String → List Int)
    (slug source : String) (chunks : List String) :
    ∀ d ∈ buildChunkDocs embed slug source chunks,
      d.keyMatches slug source = true := by
  intro d hd
  simp only [buildChunkDocs, List.mem_map] at hd
  obtain ⟨p, _, rfl⟩ := hd
  simp [ChunkDoc.keyMatches]

/-- The two filters of an indexed store: the new documents under the key,
everything else untouched. -/
theorem process_and_store_filters (embed : String → List Int)
    (slug text source : String) (db : DB)
    (h : chunk_text text 500 ≠ []) :
    (process_and_store_knowledge embed slug text source db).knowledge
      = db.knowledge.filter (fun d => !(d.keyMatches slug source))
        ++ buildChunkDocs embed slug source (chunk_text text 500) := by
  have htext : text ≠ "" := by
    intro he
    exact h (by simp [chunk_text, he])
  simp only [process_and_store_knowledge, if_neg htext, deleteKnowledge]
  rw [if_neg (by simpa [List.isEmpty_iff] using h)]

/-- **C9** (corrected).  `chunk_text` splits on blank-line paragraph
boundaries and greedily accumulates consecutive paragraphs, sealing the
current chunk exactly when the chunk that would result from appending the
next paragraph would **reach or exceed** the character budget (not only
when it would strictly exceed it, as the claim words it); the trailing
partial chunk is kept iff nonempty after stripping; and the function is
deterministic — all captured by equality with the spec-style greedy
recursion `chunkTextSpecGe`. -/
theorem C9_chunk_text_greedy_reach_or_exceed (text : String) (chunkSize : Nat) :
    chunk_text text chunkSize = chunkTextSpecGe text chunkSize := by
  unfold chunk_text chunkTextSpecGe
  by_cases h : text = ""
  · simp [h]
  · simp [h, chunkTextGo_eq_chunkGreedy]

/-- **C9** counterexample.  With budget 10 and paragraphs `"aaaa"`,
`"bbbb"`, appending the second paragraph would make the chunk exactly 10
characters — reaching but not exceeding the budget — yet the code seals;
strict-exceed greedy packing (the claim as stated) keeps them together. -/
theorem C9_counterexample_boundary_seal :
    chunk_text "aaaa\n\nbbbb" 10 = ["aaaa", "bbbb"] ∧
    chunkTextSpecStrict "aaaa\n\nbbbb" 10 = ["aaaa\n\nbbbb"] ∧
    chunk_text "aaaa\n\nbbbb" 10 ≠ chunkTextSpecStrict "aaaa\n\nbbbb" 10 :=
  ⟨by decide, by decide, by decide⟩

/-- **C3** (corrected).  Whenever re-indexing produces at least one chunk,
the stored chunk set for `(slug, source)` is fully replaced: it equals
exactly what indexing the same corpus into an empty store produces,
independent of the prior contents, and every other `(slug, source)` key is
untouched.  (When the new corpus yields no chunks, the operation is a
no-op and the prior chunks remain — see the counterexample.) -/
theorem C3_reindex_replaces_chunk_set (embed : String → List Int)
    (slug text source : String) (db : DB)
    (h : chunk_text text 500 ≠ []) :
    (process_and_store_knowledge embed slug text source db).knowledge.filter
        (fun d => d.keyMatches slug source)
      = (process_and_store_knowledge embed slug text source DB.empty).knowledge ∧
    (process_and_store_knowledge embed slug text source db).knowledge.filter
        (fun d => !(d.keyMatches slug source))
      = db.knowledge.filter (fun d => !(d.keyMatches slug source)) := by
  have hdocs := buildChunkDocs_keyMatches embed slug source (chunk_text text 500)
  rw [process_and_store_filters embed slug text source db h,
      process_and_store_filters embed slug text source DB.empty h]
  constructor
  · rw [List.filter_append]
    rw [List.filter_eq_self.mpr hdocs]
    have h1 : (db.knowledge.filter (fun d => !(d.keyMatches slug source))).filter
        (fun d => d.keyMatches slug source) = [] := by
      rw [List.filter_eq_nil_iff]
      intro d hd
      have := (List.mem_filter.mp hd).2
      simp_all
    rw [h1]
    simp [DB.empty]
  · rw [List.filter_append]
    have h2 : (buildChunkDocs embed slug source (chunk_text text 500)).filter
        (fun d => !(d.keyMatches slug source)) = [] := by
      rw [List.filter_eq_nil_iff]
      intro d hd
      simp [hdocs d hd]
    rw [h2, List.filter_filter]
    simp

/-- **C3** witness: instantiation at the corpus `"hello"` over a store
already holding a chunk for `("acme", "web")`. -/
theorem C3_witness_replace :
    (process_and_store_knowledge embed0 "acme" "hello" "web" dbOldCorpus).knowledge.filter
        (fun d => d.keyMatches "acme" "web")
      = (process_and_store_knowledge embed0 "acme" "hello" "web" DB.empty).knowledge ∧
    (process_and_store_knowledge embed0 "acme" "hello" "web" dbOldCorpus).knowledge.filter
        (fun d => !(d.keyMatches "acme" "web"))
      = dbOldCorpus.knowledge.filter (fun d => !(d.keyMatches "acme" "web")) :=
  C3_reindex_replaces_chunk_set embed0 "acme" "hello" "web" dbOldCorpus (by decide)

/-- **C3** counterexample.  A second run whose corpus is the nonempty
whitespace text `"\n\n"` yields no chunks, so the indexer returns before
the delete: the first run's chunk survives, although indexing the second
corpus alone produces the empty chunk set — the stored set is **not**
independent of the first run's corpus. -/
theorem C3_counterexample_empty_corpus_noop :
    (process_and_store_knowledge embed0 "acme" "\n\n" "web" dbHello).knowledge.map
        ChunkDoc.text = ["hello"] ∧
    (process_and_store_knowledge embed0 "acme" "\n\n" "web" DB.empty).knowledge = [] :=
  ⟨by decide, by decide⟩

/-- Collapsing a character list without a single kept character yields at
most one leading hyphen; with the in-run flag set, nothing at all. -/
theorem slugCollapse_nonkeep (l : List Char)
    (h : ∀ c ∈ l, isSlugKeep c = false) :
    slugCollapse true l = [] := by
  induction l with
  | nil => rfl
  | cons c cs ih =>
    have hc := h c (List.mem_cons_self c cs)
    simp only [slugCollapse, hc, Bool.false_eq_true, if_false, if_true]
    exact ih fun d hd => h d (List.mem_cons_of_mem c hd)

/-- A name whose lowercased characters are all outside `[a-z0-9]`
normalizes to the empty slug. -/
theorem make_slug_eq_empty (name : String)
    (h : ∀ c ∈ name.data.map pyLowerChar, isSlugKeep c = false) :
    make_slug name = "" := by
  unfold make_slug
  cases hl : name.data.map pyLowerChar with
  | nil => simp [hl, slugCollapse, stripHyphens]
  | cons c cs =>
    have hc : isSlugKeep c = false := h c (hl ▸ List.mem_cons_self c cs)
    have hcs : slugCollapse true cs = [] :=
      slugCollapse_nonkeep cs fun d hd => h d (hl ▸ List.mem_cons_of_mem c hd)
    simp [hl, slugCollapse, hc, hcs, stripHyphens]

/-- **C10** (corrected).  The slug derivation indeed returns the empty
string on a name with no ASCII alphanumeric character; but the company
upsert does **not** key the document by that empty slug: `store_company`
treats an empty slug as missing (it is falsy) and recomputes the key from
the profile's `name` field.  Only when the name also normalizes to the
empty string is the document keyed by `""`; in no case is it rejected. -/
theorem C10_empty_slug_recomputed (name : String) (db : DB) (p : Profile)
    (now : Nat)
    (h : ∀ c ∈ name.data.map pyLowerChar, isSlugKeep c = false)
    (hp : p.slug = "") :
    make_slug name = "" ∧
    (store_company db p now).2.slug = make_slug p.name := by
  refine ⟨make_slug_eq_empty name h, ?_⟩
  simp [store_company, hp]

/-- **C10** witness: the punctuation-only name `"???"` normalizes to `""`;
a profile carrying slug `""` and name `"Acme Corp"` is keyed by
`make_slug "Acme Corp"`. -/
theorem C10_witness_empty_slug :
    make_slug "???" = "" ∧
    (store_company DB.empty emptySlugProfile 0).2.slug
      = make_slug emptySlugProfile.name :=
  C10_empty_slug_recomputed "???" DB.empty emptySlugProfile 0 (by decide) (by decide)

/-- **C10** counterexample.  The upsert substitutes the name-derived key
for the empty slug: a profile with slug `""` and name `"Acme Corp"` is
stored under `"acme-corp"`, not under the empty primary key the claim
asserts. -/
theorem C10_counterexample_slug_substituted :
    make_slug "???" = "" ∧
    (store_company DB.empty emptySlugProfile 0).2.slug = "acme-corp" ∧
    ("acme-corp" : String) ≠ "" :=
  ⟨by decide, by decide, by decide⟩

/-- The run's stored profile is the post-update document of the company
upsert, independent of the incoming store. -/
theorem run_pipeline_stored_eq (inp : RunInput) (oc : RunOutcomes)
    (embed : String → List Int) (now : Nat) (db : DB) :
    (run_pipeline inp oc embed now db).stored
      = (store_company (dbAfterIndexing inp oc embed db) (runProfile inp oc now) now).2 := rfl

/-- When the run's slug is nonempty, it is the key the profile is stored
under. -/
theorem run_pipeline_stored_slug (inp : RunInput) (oc : RunOutcomes)
    (embed : String → List Int) (now : Nat) (db : DB)
    (h : runSlug inp oc ≠ "") :
    (run_pipeline inp oc embed now db).stored.slug = runSlug inp oc := by
  show (if runSlug inp oc ≠ "" then runSlug inp oc else make_slug (runFinalName inp oc))
      = runSlug inp oc
  rw [if_pos h]

/-- **C4** (corrected).  The working-name precedence the source implements
is: explicit `name`; else, when a document parsed successfully, the fixed
label `"uploaded-doc"` — **even when a crawl-discovered URL exists**,
contrary to the claim's "fallback label for document-only runs"; else the
crawl-discovered URL; else `"unknown"`.  The persisted slug is the
deterministic normalization `make_slug` of that working name, and (for a
nonempty slug) it is not recomputed when synthesis returns a different
display name: replacing the completion capability leaves the stored key
unchanged. -/
theorem C4_working_name_precedence (inp : RunInput) (oc : RunOutcomes)
    (comp' : String → Except String (List (String × JVal)))
    (embed : String → List Int) (now : Nat) (db : DB)
    (h : runSlug inp oc ≠ "") :
    workingName inp oc = workingNameAmended inp oc ∧
    (run_pipeline inp oc embed now db).stored.slug = make_slug (workingName inp oc) ∧
    (run_pipeline inp { oc with completion := comp' } embed now db).stored.slug
      = (run_pipeline inp oc embed now db).stored.slug := by
  refine ⟨?_, ?_, ?_⟩
  · unfold workingName workingNameAmended
    have hw : (mergedWebData inp oc).url = (crawlWebData inp oc).url := rfl
    by_cases hn : pyTruthyS inp.name <;>
      by_cases hd : (parsedDoc inp oc).isSome <;>
        simp [hn, hd, hw]
  · exact run_pipeline_stored_slug inp oc embed now db h
  · have h' : runSlug inp { oc with completion := comp' } ≠ "" := h
    rw [run_pipeline_stored_slug inp _ embed now db h',
        run_pipeline_stored_slug inp oc embed now db h]
    rfl

/-- **C4** witness: a run with a crawl-discovered URL and a parsed
document (no explicit name) — working name `"uploaded-doc"`, stored slug
`"uploaded-doc"`, unchanged when the completion is replaced. -/
theorem C4_witness_precedence :
    workingName { url := some "https://x.com", document_url := some "https://x.com/d.pdf" }
        urlDocOutcomes
      = workingNameAmended
          { url := some "https://x.com", document_url := some "https://x.com/d.pdf" }
          urlDocOutcomes ∧
    (run_pipeline { url := some "https://x.com", document_url := some "https://x.com/d.pdf" }
        urlDocOutcomes embed0 0 DB.empty).stored.slug
      = make_slug (workingName
          { url := some "https://x.com", document_url := some "https://x.com/d.pdf" }
          urlDocOutcomes) ∧
    (run_pipeline { url := some "https://x.com", document_url := some "https://x.com/d.pdf" }
        { urlDocOutcomes with completion := fun _ => .ok acmeAnalysis }
        embed0 0 DB.empty).stored.slug
      = (run_pipeline { url := some "https://x.com", document_url := some "https://x.com/d.pdf" }
          urlDocOutcomes embed0 0 DB.empty).stored.slug :=
  C4_working_name_precedence
    { url := some "https://x.com", document_url := some "https://x.com/d.pdf" }
    urlDocOutcomes (fun _ => .ok acmeAnalysis) embed0 0 DB.empty (by decide)

/-- **C4** counterexample.  With a crawl-discovered URL `https://x.com`
and a successfully parsed document, the claim's precedence gives the
URL-derived slug `"https-x-com"`; the code stores `"uploaded-doc"`. -/
theorem C4_counterexample_doc_overrides_url :
    (run_pipeline { url := some "https://x.com", document_url := some "https://x.com/d.pdf" }
        urlDocOutcomes embed0 0 DB.empty).stored.slug = "uploaded-doc" ∧
    workingNameSpec { url := some "https://x.com", document_url := some "https://x.com/d.pdf" }
        urlDocOutcomes = "https://x.com" ∧
    make_slug "https://x.com" = "https-x-com" ∧
    ("uploaded-doc" : String) ≠ "https-x-com" :=
  ⟨by decide, by decide, by decide, by decide⟩

/-- **C5** (corrected).  The synthesizer performs no clamping and no
integer coercion: a successful completion's parsed object is returned
verbatim by `analyze_company`, and the run persists that object verbatim
in the profile's `analysis` field — so out-of-range scores such as a
`signal_strength` of 150 are stored as-is (see the counterexample), not
clamped into `[0, 100]`; nothing touches the PMF score either. -/
theorem C5_no_clamping_passthrough (name url : Option String)
    (completion : String → Except String (List (String × JVal)))
    (web : WebData) (doc : Option DocData) (o : List (String × JVal))
    (inp : RunInput) (oc : RunOutcomes) (embed : String → List Int)
    (now : Nat) (db : DB)
    (h : completion (analysisPrompt (pyOrS name (pyOrS url "Unknown Company"))
          (analysisContext web doc)) = .ok o) :
    analyze_company name url completion web doc = o ∧
    (run_pipeline inp oc embed now db).stored.analysis = runAnalysis inp oc := by
  constructor
  · show (match completion (analysisPrompt (pyOrS name (pyOrS url "Unknown Company"))
          (analysisContext web doc)) with
        | Except.ok o => o
        | Except.error e =>
          analysisFallback (pyOrS name (pyOrS url "Unknown Company")) e) = o
    rw [h]
  · rfl

/-- **C5** witness: the spec's own scenario — upstream analysis with
`signal_strength` 150 — passes through `analyze_company` unchanged, and a
run's stored analysis is its synthesis result. -/
theorem C5_witness_passthrough :
    analyze_company (some "Acme Corp") none acmeOutcomes.completion
        (mergedWebData { name := some "Acme Corp" } acmeOutcomes)
        (parsedDoc { name := some "Acme Corp" } acmeOutcomes)
      = acmeAnalysis ∧
    (run_pipeline { name := some "Acme Corp" } acmeOutcomes embed0 7 DB.empty).stored.analysis
      = runAnalysis { name := some "Acme Corp" } acmeOutcomes :=
  C5_no_clamping_passthrough (some "Acme Corp") none acmeOutcomes.completion
    (mergedWebData { name := some "Acme Corp" } acmeOutcomes)
    (parsedDoc { name := some "Acme Corp" } acmeOutcomes) acmeAnalysis
    { name := some "Acme Corp" } acmeOutcomes embed0 7 DB.empty rfl

/-- **C5** counterexample.  The spec's concrete scenario: name
`"Acme Corp"`, crawl returns a corpus, the `hiring_velocity` specialist
succeeds, synthesis returns `signal_strength` 150.  The persisted profile
has slug `"acme-corp"` and the expected `agent_metrics`, but its
`analysis.metrics.signal_strength` is 150, not the claimed clamped 100. -/
theorem C5_counterexample_signal_strength_150 :
    (run_pipeline { name := some "Acme Corp" } acmeOutcomes embed0 7 DB.empty).stored.slug
      = "acme-corp" ∧
    ((run_pipeline { name := some "Acme Corp" } acmeOutcomes embed0 7 DB.empty).stored.agent_metrics.map
        Prod.fst) = ["hiring_velocity"] ∧
    jget (analysisMetricsObj
        (run_pipeline { name := some "Acme Corp" } acmeOutcomes embed0 7 DB.empty).stored.analysis)
        "signal_strength" = some (.num 150) ∧
    jget (analysisMetricsObj
        (run_pipeline { name := some "Acme Corp" } acmeOutcomes embed0 7 DB.empty).stored.analysis)
        "signal_strength" ≠ some (.num 100) := by
  refine ⟨by decide, by decide, rfl, ?_⟩
  intro hEq
  have h1 : some (JVal.num 150) = some (JVal.num 100) := hEq
  injection h1 with h2
  injection h2 with h3
  exact absurd h3 (by decide)

/-- **C6** (confirmed).  `analyze_company` is total — every internal
failure (transport error, timeout, unparsable JSON: any `.error` outcome
of the completion call) maps to the deterministic fallback object with
neutral sentiment, zero signal strength and the `error` field set — and
when ingestion succeeded but synthesis failed, that fallback is exactly
what the run persists in the profile's `analysis`. -/
theorem C6_synthesis_fallback (name url : Option String)
    (completion : String → Except String (List (String × JVal)))
    (web : WebData) (doc : Option DocData) (e : String)
    (inp : RunInput) (oc : RunOutcomes) (embed : String → List Int)
    (now : Nat) (db : DB) (e₂ : String)
    (h : completion (analysisPrompt (pyOrS name (pyOrS url "Unknown Company"))
          (analysisContext web doc)) = .error e)
    (h₂ : oc.completion (analysisPrompt (pyOrS inp.name (pyOrS inp.url "Unknown Company"))
          (analysisContext (mergedWebData inp oc) (parsedDoc inp oc))) = .error e₂) :
    analyze_company name url completion web doc
      = analysisFallback (pyOrS name (pyOrS url "Unknown Company")) e ∧
    jget (analysisMetricsObj (run_pipeline inp oc embed now db).stored.analysis)
        "sentiment" = some (.str "Neutral") ∧
    jget (analysisMetricsObj (run_pipeline inp oc embed now db).stored.analysis)
        "signal_strength" = some (.num 0) ∧
    jget ((run_pipeline inp oc embed now db).stored.analysis) "error"
      = some (.str e₂) := by
  have hfall : ∀ (n u : Option String) (c : String → Except String (List (String × JVal)))
      (w : WebData) (d : Option DocData) (err : String),
      c (analysisPrompt (pyOrS n (pyOrS u "Unknown Company")) (analysisContext w d))
          = .error err →
      analyze_company n u c w d = analysisFallback (pyOrS n (pyOrS u "Unknown Company")) err := by
    intro n u c w d err herr
    show (match c (analysisPrompt (pyOrS n (pyOrS u "Unknown Company"))
          (analysisContext w d)) with
        | Except.ok o => o
        | Except.error e => analysisFallback (pyOrS n (pyOrS u "Unknown Company")) e)
      = analysisFallback (pyOrS n (pyOrS u "Unknown Company")) err
    rw [herr]
  have hstored : (run_pipeline inp oc embed now db).stored.analysis
      = analysisFallback (pyOrS inp.name (pyOrS inp.url "Unknown Company")) e₂ := by
    show runAnalysis inp oc = _
    exact hfall inp.name inp.url oc.completion (mergedWebData inp oc) (parsedDoc inp oc) e₂ h₂
  refine ⟨hfall name url completion web doc e h, ?_, ?_, ?_⟩ <;>
    rw [hstored] <;> rfl

/-- **C6** witness: every collaborator failing — `analyze_company` returns
the fallback, and the no-identifier all-failing run persists neutral
sentiment, zero signal strength and the error string. -/
theorem C6_witness_fallback :
    analyze_company none none failOutcomes.completion
        (mergedWebData {} failOutcomes) (parsedDoc {} failOutcomes)
      = analysisFallback "Unknown Company" "llm down" ∧
    jget (analysisMetricsObj (run_pipeline {} failOutcomes embed0 3 DB.empty).stored.analysis)
        "sentiment" = some (.str "Neutral") ∧
    jget (analysisMetricsObj (run_pipeline {} failOutcomes embed0 3 DB.empty).stored.analysis)
        "signal_strength" = some (.num 0) ∧
    jget ((run_pipeline {} failOutcomes embed0 3 DB.empty).stored.analysis) "error"
      = some (.str "llm down") :=
  C6_synthesis_fallback none none failOutcomes.completion
    (mergedWebData {} failOutcomes) (parsedDoc {} failOutcomes) "llm down"
    {} failOutcomes embed0 3 DB.empty "llm down" rfl rfl

/-- The merge loop collects exactly the successful truthy outcomes, their
labeled sections concatenated in roster order. -/
theorem mergeAgents_eq (l : List (String × Except String JVal)) :
    mergeAgents l
      = ((agentSuccesses l).foldr (fun tv acc => agentSection tv.1 tv.2 ++ acc) "",
         agentSuccesses l) := by
  induction l with
  | nil => rfl
  | cons p rest ih =>
    obtain ⟨topic, o⟩ := p
    cases o with
    | error e => simpa [mergeAgents, agentSuccesses, List.filterMap_cons] using ih
    | ok v =>
      by_cases hv : v.isTruthy
      · simp [mergeAgents, agentSuccesses, List.filterMap_cons, hv, ih]
      · simp [mergeAgents, agentSuccesses, List.filterMap_cons, hv, ih]

/-- An entry appears among the successes exactly when its outcome is an
untruncated success with a truthy value. -/
theorem agentSuccesses_mem (l : List (String × Except String JVal))
    (t : String) (v : JVal) :
    (t, v) ∈ agentSuccesses l ↔ ((t, Except.ok v) ∈ l ∧ v.isTruthy = true) := by
  simp only [agentSuccesses, List.mem_filterMap]
  constructor
  · rintro ⟨⟨t', o⟩, hmem, hf⟩
    cases o with
    | error e => simp at hf
    | ok v' =>
      by_cases hv : v'.isTruthy
      · simp only [hv, if_true, Option.some.injEq, Prod.mk.injEq] at hf
        obtain ⟨rfl, rfl⟩ := hf
        exact ⟨hmem, hv⟩
      · simp [hv] at hf
  · rintro ⟨hmem, htr⟩
    exact ⟨(t, Except.ok v), hmem, by simp [htr]⟩

/-- **C7** (confirmed).  The merge policy: the corpus handed to synthesis
and indexing is the crawled raw text with the serialized labeled section
of each successful truthy specialist appended in roster order; each such
result is stored verbatim under its mission topic in `agent_metrics`; a
topic is present there exactly when its outcome was a success with a
truthy value — failures and empty results are skipped identically, and
each entry depends only on its own mission's outcome. -/
theorem C7_specialist_merge_policy (l : List (String × Except String JVal))
    (t : String) (v : JVal) (inp : RunInput) (oc : RunOutcomes) (now : Nat) :
    mergeAgents l
      = ((agentSuccesses l).foldr (fun tv acc => agentSection tv.1 tv.2 ++ acc) "",
         agentSuccesses l) ∧
    ((t, v) ∈ (mergeAgents l).2 ↔ ((t, Except.ok v) ∈ l ∧ v.isTruthy = true)) ∧
    (mergedWebData inp oc).raw
      = (crawlWebData inp oc).raw ++ (mergeAgents (agentOutcomeList inp oc)).1 ∧
    (runProfile inp oc now).agent_metrics = agentSuccesses (agentOutcomeList inp oc) ∧
    runAnalysis inp oc
      = analyze_company inp.name inp.url oc.completion (mergedWebData inp oc)
          (parsedDoc inp oc) := by
  refine ⟨mergeAgents_eq l, ?_, rfl, ?_, rfl⟩
  · rw [mergeAgents_eq]
    exact agentSuccesses_mem l t v
  · show (mergeAgents (agentOutcomeList inp oc)).2 = _
    rw [mergeAgents_eq]

/-- An indexing task, failed or not, never touches the companies list. -/
theorem runIndexWithFailure_companies (embed : String → List Int)
    (slug text source : String) (failAt : Option IndexStep) (db : DB) :
    (runIndexWithFailure embed slug text source failAt db).companies
      = db.companies := by
  unfold runIndexWithFailure deleteKnowledge
  dsimp only
  split_ifs <;> rfl

/-- An indexing task, failed or not, never touches the snapshots. -/
theorem runIndexWithFailure_snapshots (embed : String → List Int)
    (slug text source : String) (failAt : Option IndexStep) (db : DB) :
    (runIndexWithFailure embed slug text source failAt db).snapshots
      = db.snapshots := by
  unfold runIndexWithFailure deleteKnowledge
  dsimp only
  split_ifs <;> rfl

/-- Stage B's indexing side never touches the companies list. -/
theorem dbAfterIndexing_companies (inp : RunInput) (oc : RunOutcomes)
    (embed : String → List Int) (db : DB) :
    (dbAfterIndexing inp oc embed db).companies = db.companies := by
  unfold dbAfterIndexing
  cases hpd : parsedDoc inp oc with
  | none => dsimp only; split_ifs <;> simp [runIndexWithFailure_companies]
  | some dd => dsimp only; split_ifs <;> simp [runIndexWithFailure_companies]

/-- Stage B's indexing side never touches the snapshots. -/
theorem dbAfterIndexing_snapshots (inp : RunInput) (oc : RunOutcomes)
    (embed : String → List Int) (db : DB) :
    (dbAfterIndexing inp oc embed db).snapshots = db.snapshots := by
  unfold dbAfterIndexing
  cases hpd : parsedDoc inp oc with
  | none => dsimp only; split_ifs <;> simp [runIndexWithFailure_snapshots]
  | some dd => dsimp only; split_ifs <;> simp [runIndexWithFailure_snapshots]

/-- The company upsert leaves the snapshots collection alone. -/
theorem store_company_fst_snapshots (db : DB) (data : Profile) (now : Nat) :
    (store_company db data now).1.snapshots = db.snapshots := rfl

/-- The post-update document is always present after the upsert. -/
theorem store_company_mem (db : DB) (data : Profile) (now : Nat) :
    (store_company db data now).2 ∈ (store_company db data now).1.companies := by
  simp only [store_company]
  by_cases h : db.companies.any
      (fun c => c.slug = (if data.slug ≠ "" then data.slug else make_slug data.name)) = true
  · rw [if_pos h]
    obtain ⟨c, hc, hcs⟩ := List.any_eq_true.mp h
    refine List.mem_map.mpr ⟨c, hc, ?_⟩
    rw [if_pos (of_decide_eq_true hcs)]
  · rw [if_neg h]
    exact List.mem_append_right _ (List.mem_singleton_self _)


/-- The run's stored profile is always present in the resulting store. -/
theorem run_pipeline_db_companies (inp : RunInput) (oc : RunOutcomes)
    (embed : String → List Int) (now : Nat) (db : DB) :
    (run_pipeline inp oc embed now db).db.companies
      = (store_company (dbAfterIndexing inp oc embed db) (runProfile inp oc now) now).1.companies := by
  simp only [run_pipeline, store_snapshot, record_metric_history]
  split_ifs <;> rfl

/-- One snapshot row is appended per run, whatever the outcomes. -/
theorem run_pipeline_db_snapshots (inp : RunInput) (oc : RunOutcomes)
    (embed : String → List Int) (now : Nat) (db : DB) :
    (run_pipeline inp oc embed now db).db.snapshots
      = db.snapshots ++ [⟨runSlug inp oc, now, runAnalysis inp oc,
          (mergeAgents (agentOutcomeList inp oc)).2⟩] := by
  have h1 := dbAfterIndexing_snapshots inp oc embed db
  simp only [run_pipeline, store_snapshot, record_metric_history]
  split_ifs <;> simp only [store_company_fst_snapshots] <;> rw [h1]

/-- The run always persists its profile. -/
theorem run_pipeline_stored_mem (inp : RunInput) (oc : RunOutcomes)
    (embed : String → List Int) (now : Nat) (db : DB) :
    (run_pipeline inp oc embed now db).stored
      ∈ (run_pipeline inp oc embed now db).db.companies := by
  rw [run_pipeline_stored_eq, run_pipeline_db_companies]
  exact store_company_mem _ _ _

/-- After the upsert, every company under the stored key **is** the stored
document. -/
theorem store_company_matching (db : DB) (data : Profile) (now : Nat) :
    ∀ c ∈ (store_company db data now).1.companies,
      c.slug = (store_company db data now).2.slug
        → c = (store_company db data now).2 := by
  simp only [store_company]
  intro c hc hcs
  by_cases h : db.companies.any
      (fun x => x.slug = (if data.slug ≠ "" then data.slug else make_slug data.name)) = true
  · rw [if_pos h] at hc
    obtain ⟨x, hx, hfx⟩ := List.mem_map.mp hc
    by_cases hxs : x.slug = (if data.slug ≠ "" then data.slug else make_slug data.name)
    · rw [← hfx, if_pos hxs]
    · rw [← hfx, if_neg hxs] at hcs
      exact absurd hcs hxs
  · rw [if_neg h] at hc
    rcases List.mem_append.mp hc with hmem | hdoc
    · have hall := List.any_eq_false.mp (Bool.not_eq_true _ ▸ h)
      exact absurd hcs (by simpa using hall c hmem)
    · simpa using hdoc

/-- **C8** (corrected).  An indexing-task failure during chunking,
embedding, or the delete call leaves the prior chunk set for the
`(slug, source)` key untouched, and the run still persists and returns a
profile; but this does **not** hold for a failure at the insert step (see
the counterexample): the delete has already applied, so the old chunks are
gone and no new chunks exist. -/
theorem C8_prefail_leaves_chunks_untouched (embed : String → List Int)
    (slug text source : String) (db : DB) (s : IndexStep)
    (inp : RunInput) (oc : RunOutcomes) (now : Nat) (db₀ : DB)
    (h : s ≠ IndexStep.insertStep) (hoc : oc.webIndexFail = some s) :
    runIndexWithFailure embed slug text source (some s) db = db ∧
    (run_pipeline inp oc embed now db₀).stored
      ∈ (run_pipeline inp oc embed now db₀).db.companies := by
  refine ⟨?_, run_pipeline_stored_mem inp oc embed now db₀⟩
  cases s
  · simp [runIndexWithFailure]
  · unfold runIndexWithFailure
    split_ifs <;> simp_all
  · unfold runIndexWithFailure
    split_ifs <;> simp_all
  · exact absurd rfl h

/-- **C8** witness: a failure at the embedding step over a store holding
one chunk for `("acme", "web")` leaves the store unchanged, and a run
whose web-indexing task fails at that step still persists its profile. -/
theorem C8_witness_prefail :
    runIndexWithFailure embed0 "acme" "new corpus" "web"
        (some IndexStep.embedStep) dbOldCorpus = dbOldCorpus ∧
    (run_pipeline { name := some "Acme Corp" }
        { acmeOutcomes with webIndexFail := some IndexStep.embedStep }
        embed0 1 DB.empty).stored
      ∈ (run_pipeline { name := some "Acme Corp" }
          { acmeOutcomes with webIndexFail := some IndexStep.embedStep }
          embed0 1 DB.empty).db.companies :=
  C8_prefail_leaves_chunks_untouched embed0 "acme" "new corpus" "web" dbOldCorpus
    IndexStep.embedStep { name := some "Acme Corp" }
    { acmeOutcomes with webIndexFail := some IndexStep.embedStep } 1 DB.empty
    (by decide) rfl

/-- **C8** counterexample.  A failure at the insert step — after the
delete call has applied — leaves the `("acme", "web")` chunk set empty:
the old chunks are deleted and the new chunks never inserted, the state
the claim says cannot occur. -/
theorem C8_counterexample_insert_failure_loses_chunks :
    dbOldCorpus.knowledge.map ChunkDoc.text = ["old corpus"] ∧
    (runIndexWithFailure embed0 "acme" "new corpus" "web"
        (some IndexStep.insertStep) dbOldCorpus).knowledge = [] :=
  ⟨by decide, by decide⟩



/-- **C1** (corrected).  The pipeline run never raises, for **any** input:
with no identifier at all it does not fail fast — it proceeds with noop
ingestion, derives the fallback working name `"unknown"`, and persists a
profile plus a snapshot (state **is** persisted); and failures of any or
all sub-tasks likewise never abort the run: every run persists its
(possibly degraded) profile and appends exactly one snapshot.  (The
no-identifier rejection exists only at the HTTP boundary, which answers
with an error object without invoking the pipeline.) -/
theorem C1_run_total_and_persists (inp : RunInput) (oc oc₂ : RunOutcomes)
    (embed : String → List Int) (now : Nat) (db : DB) :
    (run_pipeline inp oc embed now db).stored
      ∈ (run_pipeline inp oc embed now db).db.companies ∧
    (run_pipeline inp oc embed now db).db.snapshots
      = db.snapshots ++ [⟨runSlug inp oc, now, runAnalysis inp oc,
          (mergeAgents (agentOutcomeList inp oc)).2⟩] ∧
    workingName {} oc₂ = "unknown" :=
  ⟨run_pipeline_stored_mem inp oc embed now db,
   run_pipeline_db_snapshots inp oc embed now db, rfl⟩

/-- **C1** counterexample.  A run with no identifier at all, where every
external collaborator also fails, does not raise and does not fail fast:
it persists a company profile keyed `"unknown"`, a snapshot, and a
metric-history row — contradicting "fails fast, no partial state
persisted". -/
theorem C1_counterexample_no_identifier_persists :
    (run_pipeline {} failOutcomes embed0 3 DB.empty).stored.slug = "unknown" ∧
    (run_pipeline {} failOutcomes embed0 3 DB.empty).db.companies.length = 1 ∧
    (run_pipeline {} failOutcomes embed0 3 DB.empty).db.snapshots.length = 1 ∧
    (run_pipeline {} failOutcomes embed0 3 DB.empty).db.metricsHistory.length = 1 ∧
    (run_pipeline {} failOutcomes embed0 3 DB.empty).agentsCompleted = [] :=
  ⟨by decide, by decide, by decide, by decide, by decide⟩

/-- **C2** (corrected).  The pipeline's persistence step does **not**
preserve `watchlist` and `monitoring`: the profile dict it upserts always
carries `watchlist = False` and the default monitoring config, and the
upsert `$set`s every field of that dict, so after any run (refresh
included) every company document under the run's slug is exactly the
freshly built profile — values set by the other write paths are
clobbered. -/
theorem C2_pipeline_overwrites_watchlist_monitoring (inp : RunInput)
    (oc : RunOutcomes) (embed : String → List Int) (now : Nat) (db : DB) :
    (run_pipeline inp oc embed now db).stored.watchlist = false ∧
    (run_pipeline inp oc embed now db).stored.monitoring = defaultMonitoring now ∧
    ∀ c ∈ (run_pipeline inp oc embed now db).db.companies,
      c.slug = (run_pipeline inp oc embed now db).stored.slug
        → c = (run_pipeline inp oc embed now db).stored := by
  refine ⟨rfl, rfl, ?_⟩
  rw [run_pipeline_stored_eq, run_pipeline_db_companies]
  exact store_company_matching _ _ _

/-- **C2** witness: instantiation at the stored profile of a refresh over
a store whose profile had `watchlist = true` and an active monitoring
config. -/
theorem C2_witness_overwrite :
    (run_pipeline { name := some "Acme Corp" } acmeOutcomes embed0 2 monitoredDb).stored.watchlist
      = false ∧
    (run_pipeline { name := some "Acme Corp" } acmeOutcomes embed0 2 monitoredDb).stored.monitoring
      = defaultMonitoring 2 := by
  obtain ⟨h1, h2, _⟩ := C2_pipeline_overwrites_watchlist_monitoring
    { name := some "Acme Corp" } acmeOutcomes embed0 2 monitoredDb
  exact ⟨h1, h2⟩

/-- **C2** counterexample.  A stored profile carries `watchlist = true`
and an active monitoring config (set by the write paths that own those
fields); after a pipeline run — equivalently a `refresh` — for the same
slug, `watchlist` is `false` and `monitoring` is back to the pipeline's
defaults: the fields were clobbered, not preserved. -/
theorem C2_counterexample_watchlist_clobbered :
    monitoredProfile.watchlist = true ∧
    monitoredProfile.monitoring.active = true ∧
    get_company monitoredDb "acme-corp" = some monitoredProfile ∧
    ((get_company (run_pipeline { name := some "Acme Corp" } acmeOutcomes embed0 2
        monitoredDb).db "acme-corp").map Profile.watchlist) = some false ∧
    ((get_company (run_pipeline { name := some "Acme Corp" } acmeOutcomes embed0 2
        monitoredDb).db "acme-corp").map Profile.monitoring)
      = some (defaultMonitoring 2) ∧
    ((refresh_company acmeOutcomes embed0 2 monitoredDb "acme-corp").map
        (fun r => (get_company r.db "acme-corp").map Profile.watchlist))
      = some (some false) :=
  ⟨rfl, rfl, rfl, by decide, by decide, by decide⟩

/-- **C7** witness: the concrete scenario — the successful truthy
`hiring_velocity` outcome appears in `agent_metrics` verbatim. -/
theorem C7_witness_merge :
    (mergeAgents (agentOutcomeList { name := some "Acme Corp" } acmeOutcomes)).2
      = agentSuccesses (agentOutcomeList { name := some "Acme Corp" } acmeOutcomes) ∧
    ("hiring_velocity",
        JVal.obj [("hiring_status", .str "Aggressive"), ("open_roles_count", .num 42)])
      ∈ (mergeAgents (agentOutcomeList { name := some "Acme Corp" } acmeOutcomes)).2 := by
  obtain ⟨h1, h2, _, _, _⟩ := C7_specialist_merge_policy
    (agentOutcomeList { name := some "Acme Corp" } acmeOutcomes) "hiring_velocity"
    (JVal.obj [("hiring_status", .str "Aggressive"), ("open_roles_count", .num 42)])
    { name := some "Acme Corp" } acmeOutcomes 2
  refine ⟨by rw [h1], h2.mpr ⟨?_, by decide⟩⟩
  exact List.mem_cons_self _ _

end Signals
